import Mathlib

/-!
Verification of the segment aligner in
`src/end2you/data_generator/audiovisual_generator.py`.

The embedding follows the source line by line:

* label values, timestamps, audio samples and pixels are rationals
  (the source uses `float32`; the claims under study concern rounding
  of decimal expressions and structural shapes, which the rational
  embedding represents exactly);
* the collaborators (`FileReader.read_file`, `VideoFileClip`, the
  `FaceExtractor` detector) are parameters: a label-file reader is a
  function from the file name to `(rows, attribute names)`, an open
  media clip provides a visual-frame range read and an audio-sample
  range read, and a detector carries its configured `resize` value and
  its `extract_and_resize_face` function, which either returns
  processed frames or fails (the Python code catches every exception
  raised by it);
* `_get_samples` additionally returns the list of media events it
  performed (opening the clip, per-segment range reads), so that the
  order of I/O relative to a failure is observable;
* Python `int()` truncation toward zero, `np.around(·, decimals=6)`
  (round half to even at six decimals), slicing `l[:n]` (including
  negative `n`), `mean(1)` and `transpose(0, 3, 1, 2)` are each given
  an explicit Lean counterpart below.
-/

/-- A visual frame: height × width × channels grid of pixel values
(`H × W × C`, channel-last, as produced by `iter_frames`). -/
abbrev Frame := List (List (List ℚ))

/-- A block of visual frames (`T × H × W × C`). -/
abbrev VisBlock := List Frame

/-- A block of audio samples (`T × channels`), as produced by
`clip.audio.iter_frames`. -/
abbrev AudBlock := List (List ℚ)

/-- The Visual Post-Processor (`FaceExtractor`): its configured output
resolution `resize[0]` and its `extract_and_resize_face` function, which
may fail (any exception in Python; here `Except.error`). -/
@[ext]
structure FaceExtractor where
  resize : ℕ
  extract_and_resize_face : VisBlock → Except Unit VisBlock

/-- Modelled from the spec: `FaceExtractor()` — the default detector that
`AudioVisualGenerator.__init__` constructs when none is passed
(`face_extractor.py` is not under `src/`).  Only its existence matters to
the claims below; its resolution and processing function are opaque
placeholders standing for the implementation-defined defaults. -/
def FaceExtractor.default : FaceExtractor :=
  { resize := 96, extract_and_resize_face := fun v => Except.ok v }

/-- An open media handle (`VideoFileClip`): sub-range visual frame reads
(`clip.subclip(s, e).iter_frames()`) and sub-range audio sample reads
(`clip.audio.subclip(s, e).iter_frames()`). -/
@[ext]
structure Clip where
  visSub : ℚ → ℚ → VisBlock
  audSub : ℚ → ℚ → AudBlock

/-- The generator state built by `AudioVisualGenerator.__init__`:
the stored label-file reader, detector (`none` models a Python-falsy
detector, so that the `if self.detector:` branch is observable),
`fps` and `sr`. -/
@[ext]
structure AudioVisualGenerator where
  labelfile_reader : String → List (List ℚ) × List String
  detector : Option FaceExtractor
  fps : ℚ
  sr : ℚ

/-- The constructor `AudioVisualGenerator.__init__`: a missing (or `None`) detector is
replaced by a fresh default `FaceExtractor()`; a passed detector object
is always truthy, so the stored detector is never absent. -/
def AudioVisualGenerator.init
    (labelfile_reader : String → List (List ℚ) × List String)
    (detector : Option FaceExtractor) (fps sr : ℚ) : AudioVisualGenerator :=
  { labelfile_reader
    detector := some (detector.getD FaceExtractor.default)
    fps, sr }

/-- Media events performed by `_get_samples`, in order: opening the
`VideoFileClip`, and the per-segment visual / audio range reads. -/
inductive MediaEvent
  | openMedia
  | readVisual (i : ℕ)
  | readAudio (i : ℕ)
deriving DecidableEq, Repr

/-- The Python error the code actually raises on bad input
(an `IndexError` from indexing past the end of `timestamps`). -/
inductive PyErr
  | indexError
deriving DecidableEq, Repr

/-- Python `int(q)`: truncation toward zero. -/
def pyTruncInt (q : ℚ) : ℤ :=
  if 0 ≤ q then ⌊q⌋ else -⌊-q⌋

/-- Round to the nearest integer, half to even (IEEE / numpy rounding). -/
def roundHalfEven (q : ℚ) : ℤ :=
  if q - ⌊q⌋ = 1 / 2 then (if 2 ∣ ⌊q⌋ then ⌊q⌋ else ⌊q⌋ + 1) else round q

/-- The numpy rounding `np.around(q, decimals=6)`: round half to even at six decimal places. -/
def npAround6 (q : ℚ) : ℚ :=
  (roundHalfEven (q * 1000000) : ℚ) / 1000000

/-- Python slicing `l[:n]` for an arbitrary integer bound `n`
(a negative bound drops `|n|` elements from the end). -/
def pySliceTo (n : ℤ) (l : List α) : List α :=
  if 0 ≤ n then l.take n.toNat else l.take (l.length - (-n).toNat)

/-- The numpy reduction `a.mean(1)` on a `T × channels` array: per-row mean across channels. -/
def npMean1 (a : AudBlock) : List ℚ :=
  a.map (fun r => r.sum / (r.length : ℚ))

/-- One frame of `transpose(0, 3, 1, 2)`: reorder an `H × W × C` frame to
`C × H × W` (entry `(c, h, w)` is entry `(h, w, c)` of the input). -/
def frameToCHW (f : Frame) : List (List (List ℚ)) :=
  (List.range f.headI.headI.length).map
    (fun c => f.map (fun row => row.map (fun px => px.getD c 0)))

/-- The reordering `np.transpose(v, (0, 3, 1, 2))` on a `T × H × W × C` block:
per-frame channel-first reordering. -/
def npTranspose0312 (v : VisBlock) : List (List (List (List ℚ))) :=
  v.map frameToCHW

/-- The zero fallback block
`np.zeros((1, resize[0], resize[0], 3))`: one all-zero `R × R × 3` frame. -/
def zeroFallback (R : ℕ) : VisBlock :=
  [List.replicate R (List.replicate R (List.replicate 3 (0 : ℚ)))]

/-- The raw, truncated visual input of one segment:
`np.array(list(clip.subclip(s, e).iter_frames()))[:visual_num_samples]`. -/
def segVisualRaw (clip : Clip) (s e : ℚ) (vwin : ℤ) : VisBlock :=
  pySliceTo vwin (clip.visSub s e)

/-- One segment of the visual loop body: truncate the raw frames, run the
detector when present (any failure replaced by the zero fallback), then
`transpose(0, 3, 1, 2)`. -/
def segVisual (det : Option FaceExtractor) (clip : Clip) (s e : ℚ)
    (vwin : ℤ) : List (List (List (List ℚ))) :=
  let vf := segVisualRaw clip s e vwin
  let vf2 :=
    match det with
    | some d =>
        match d.extract_and_resize_face vf with
        | Except.ok r => r
        | Except.error _ => zeroFallback d.resize
    | none => vf
  npTranspose0312 vf2

/-- One segment of the audio loop body:
`np.array(list(clip.audio.subclip(s, e).iter_frames())).mean(1)[:audio_num_samples]`. -/
def segAudio (clip : Clip) (s e : ℚ) (awin : ℤ) : List ℚ :=
  pySliceTo awin (npMean1 (clip.audSub s e))

/-- Everything `_get_samples` returns on success. -/
structure Samples where
  audio_frames : List (List ℚ)
  visual_frames : List (List (List (List (List ℚ))))
  labels : List (List ℚ)
  seq_num : ℤ
  num_samples : List ℤ
  attrs_name : List String
deriving DecidableEq, Repr

/-- The aligner `AudioVisualGenerator._get_samples`, line by line:
read the label file; `timestamps = file_data[:, 0]` (an `IndexError`
when `file_data` is empty); `labels = file_data[:-1, 1:]`; open the
`VideoFileClip`; `seq_num = labels.shape[0] - 1`; derive the two windows
from `timestamps[1] - timestamps[0]` (an `IndexError` after the clip was
opened when there are fewer than two rows); then the per-segment loop.
The first component of the result is the ordered list of media events. -/
def AudioVisualGenerator.get_samples (gen : AudioVisualGenerator)
    (media : String → Clip) (data_file label_file : String) :
    List MediaEvent × Except PyErr Samples :=
  let fd := gen.labelfile_reader label_file
  let file_data := fd.1
  let attrs_name := fd.2
  if file_data.length = 0 then
    ([], Except.error PyErr.indexError)
  else
    let timestamps := file_data.map (fun r => r.headI)
    let labels := file_data.dropLast.map (fun r => r.tail)
    let clip := media data_file
    let seq_num : ℤ := (labels.length : ℤ) - 1
    if file_data.length < 2 then
      ([MediaEvent.openMedia], Except.error PyErr.indexError)
    else
      let t0 := timestamps.headI
      let t1 := timestamps.getD 1 0
      let visual_num_samples := pyTruncInt (npAround6 (gen.fps * (t1 - t0)))
      let audio_num_samples := pyTruncInt (npAround6 (gen.sr * (t1 - t0)))
      let S := timestamps.length - 1
      let visual_frames := (List.range S).map (fun i =>
        segVisual gen.detector clip (timestamps.getD i 0)
          (timestamps.getD (i + 1) 0) visual_num_samples)
      let audio_frames := (List.range S).map (fun i =>
        segAudio clip (timestamps.getD i 0) (timestamps.getD (i + 1) 0)
          audio_num_samples)
      (MediaEvent.openMedia ::
         (List.range S).flatMap
           (fun i => [MediaEvent.readVisual i, MediaEvent.readAudio i]),
       Except.ok
         { audio_frames, visual_frames, labels, seq_num
           num_samples := [audio_num_samples, visual_num_samples]
           attrs_name })

/-- The timestamp column `file_data[:, 0]`. -/
def timestampsOf (rows : List (List ℚ)) : List ℚ :=
  rows.map (fun r => r.headI)

/-- The label matrix `file_data[:-1, 1:]`. -/
def labelsOf (rows : List (List ℚ)) : List (List ℚ) :=
  rows.dropLast.map (fun r => r.tail)

/-- The first-interval duration `timestamps[1] - timestamps[0]`. -/
def dtOf (rows : List (List ℚ)) : ℚ :=
  (timestampsOf rows).getD 1 0 - (timestampsOf rows).headI

/-- The per-run visual window, derived once from the first interval. -/
def visualWindow (fps : ℚ) (rows : List (List ℚ)) : ℤ :=
  pyTruncInt (npAround6 (fps * dtOf rows))

/-- The per-run audio window, derived once from the first interval. -/
def audioWindow (sr : ℚ) (rows : List (List ℚ)) : ℤ :=
  pyTruncInt (npAround6 (sr * dtOf rows))

/-- The media events of a successful run over `S` segments. -/
def eventsOf (S : ℕ) : List MediaEvent :=
  MediaEvent.openMedia ::
    (List.range S).flatMap
      (fun i => [MediaEvent.readVisual i, MediaEvent.readAudio i])

/-- The contents of the `hdf5` file written by `serialize_samples`:
three datasets plus the metadata of lines 119–123. -/
structure H5Data where
  audio : List (List ℚ)
  visual : List (List (List (List (List ℚ))))
  labels : List (List ℚ)
  data_file : String
  label_file : String
  seq_num : ℤ
  num_samples : List ℤ
  label_names : List String
deriving DecidableEq, Repr

/-- The writer entry `AudioVisualGenerator.serialize_samples`: run `_get_samples` and
store the arrays together with the metadata; `label_names = names[1:]`. -/
def AudioVisualGenerator.serialize_samples (gen : AudioVisualGenerator)
    (media : String → Clip) (data_file label_file : String) :
    List MediaEvent × Except PyErr H5Data :=
  let r := gen.get_samples media data_file label_file
  (r.1, r.2.map (fun s =>
    { audio := s.audio_frames
      visual := s.visual_frames
      labels := s.labels
      data_file, label_file
      seq_num := s.seq_num
      num_samples := s.num_samples
      label_names := s.attrs_name.tail }))

/-- Shape predicate: `x` is an `a × b × c` array: `a` rows, each of `b` columns of `c`
entries. -/
def shape3 (x : List (List (List ℚ))) (a b c : ℕ) : Prop :=
  x.length = a ∧ ∀ y ∈ x, y.length = b ∧ ∀ z ∈ y, z.length = c

/-- Shape predicate: `x` is an `a × b × c × d` array. -/
def shape4 (x : List (List (List (List ℚ)))) (a b c d : ℕ) : Prop :=
  x.length = a ∧ ∀ y ∈ x, shape3 y b c d

/-- Two detector slots give the same collaborator responses: both are
absent, or both are present with the same configured resolution and
pointwise-equal processing functions. -/
def detectorEquiv : Option FaceExtractor → Option FaceExtractor → Prop
  | none, none => True
  | some d₁, some d₂ =>
      d₁.resize = d₂.resize ∧
        ∀ v, d₁.extract_and_resize_face v = d₂.extract_and_resize_face v
  | _, _ => False

/-- Test fixture: a clip whose visual read yields one `1 × 1 × 3` frame
whose first pixel channel records the start time of the read, and whose
audio read yields one two-channel sample. -/
def clipA : Clip :=
  { visSub := fun s _ => [[[[s, 0, 0]]]]
    audSub := fun _ _ => [[1, 3]] }

/-- Test fixture: every media file opens to `clipA`. -/
def mediaA : String → Clip :=
  fun _ => clipA

/-- Test fixture: a detector that succeeds on every input, returning it
unchanged, with configured resolution 1. -/
def idExtractor : FaceExtractor :=
  { resize := 1, extract_and_resize_face := fun v => Except.ok v }

/-- Test fixture: a two-row label table (timestamps 0 and 1). -/
def rowsTwo : List (List ℚ) :=
  [[0, 5], [1, 7]]

/-- Test fixture: attribute names of a three-column label file. -/
def namesABC : List String :=
  ["timestamp", "a", "b"]

/-- Test fixture: a reader returning the two-row table. -/
def readerTwo : String → List (List ℚ) × List String :=
  fun _ => (rowsTwo, namesABC)

/-- Test fixture: a generator over the two-row table at the source's
default rates. -/
def genTwo : AudioVisualGenerator :=
  { labelfile_reader := readerTwo
    detector := some idExtractor
    fps := 30
    sr := 16000 }

/-- Test fixture: a two-row table whose first interval lasts `0.99`
seconds, so that `fps * dt = 29.7` falls strictly between its truncation
and its nearest integer. -/
def readerPoint99 : String → List (List ℚ) × List String :=
  fun _ => ([[0, 5], [99 / 100, 7]], ["t", "a"])

/-- Test fixture: a generator over the `0.99`-second table. -/
def genPoint99 : AudioVisualGenerator :=
  { labelfile_reader := readerPoint99
    detector := some idExtractor
    fps := 30
    sr := 16000 }

/-- Test fixture: a one-row label table. -/
def readerOne : String → List (List ℚ) × List String :=
  fun _ => ([[0, 5]], namesABC)

/-- Test fixture: a generator over the one-row table. -/
def genOne : AudioVisualGenerator :=
  { labelfile_reader := readerOne
    detector := some idExtractor
    fps := 30
    sr := 16000 }

/-- Test fixture: a three-row label table (timestamps 0, 1, 2), two
segments. -/
def rowsThree : List (List ℚ) :=
  [[0, 5], [1, 7], [2, 9]]

/-- Test fixture: a reader returning the three-row table. -/
def readerThree : String → List (List ℚ) × List String :=
  fun _ => (rowsThree, namesABC)

/-- Test fixture: a detector that fails exactly on the frame block that
`clipA` produces for a segment starting at time 0, and succeeds (as the
identity) on every other block. -/
def failOnZeroExtractor : FaceExtractor :=
  { resize := 1
    extract_and_resize_face := fun v =>
      if v = [[[[0, 0, 0]]]] then Except.error () else Except.ok v }

/-- Test fixture: a detector that always succeeds but returns two frames
regardless of how many it was given. -/
def twoFrameExtractor : FaceExtractor :=
  { resize := 1
    extract_and_resize_face := fun _ =>
      Except.ok [[[[4, 5, 6]]], [[[7, 8, 9]]]] }

/-- Test fixture: a generator over the three-row table at unit rates
(`fps = sr = 1`, so both windows are 1). -/
def genThree (det : FaceExtractor) : AudioVisualGenerator :=
  { labelfile_reader := readerThree
    detector := some det
    fps := 1
    sr := 1 }

/-- Test fixture: a generator over the two-row table at unit rates with
the frame-count-changing detector. -/
def genTwoFrames : AudioVisualGenerator :=
  { labelfile_reader := readerTwo
    detector := some twoFrameExtractor
    fps := 1
    sr := 1 }

/-- The `try/except` block around the detector call: the processed
frames on success, the zero fallback of the detector's configured
resolution on any failure. -/
def detectorBranch (d : FaceExtractor) (vf : VisBlock) : VisBlock :=
  match d.extract_and_resize_face vf with
  | Except.ok r => r
  | Except.error _ => zeroFallback d.resize

/-- Test fixture: a generator over the three-row table at the source's
default rates (same `fps`, `sr` and first interval as `genTwo`, one more
segment). -/
def genThree30 : AudioVisualGenerator :=
  { labelfile_reader := readerThree
    detector := some idExtractor
    fps := 30
    sr := 16000 }

/-- Characterization of a successful `_get_samples` run (at least two
label rows): the event trace and every returned field, in terms of the
helper definitions above. -/
theorem get_samples_spec (gen : AudioVisualGenerator) (media : String → Clip)
    (data_file label_file : String) (rows : List (List ℚ)) (names : List String)
    (hread : gen.labelfile_reader label_file = (rows, names))
    (h2 : 2 ≤ rows.length) :
    gen.get_samples media data_file label_file =
      (eventsOf (rows.length - 1),
       Except.ok
         { audio_frames := (List.range (rows.length - 1)).map (fun i =>
             segAudio (media data_file) ((timestampsOf rows).getD i 0)
               ((timestampsOf rows).getD (i + 1) 0) (audioWindow gen.sr rows))
           visual_frames := (List.range (rows.length - 1)).map (fun i =>
             segVisual gen.detector (media data_file)
               ((timestampsOf rows).getD i 0)
               ((timestampsOf rows).getD (i + 1) 0) (visualWindow gen.fps rows))
           labels := labelsOf rows
           seq_num := ((labelsOf rows).length : ℤ) - 1
           num_samples := [audioWindow gen.sr rows, visualWindow gen.fps rows]
           attrs_name := names }) := by
  have h0 : ¬ rows.length = 0 := by omega
  have h1 : ¬ rows.length < 2 := by omega
  simp only [AudioVisualGenerator.get_samples, hread, h0, h1, if_false,
    eventsOf, timestampsOf, labelsOf, audioWindow, visualWindow, dtOf,
    List.length_map, ite_false]

/-- Indexing a mapped range: entry `k` of `(List.range S).map f` is `f k`. -/
theorem getD_map_range {α : Type} (S k : ℕ) (hk : k < S) (f : ℕ → α) (d : α) :
    ((List.range S).map f).getD k d = f k := by
  simp [List.getD_eq_getElem?_getD, List.getElem?_map, List.getElem?_range hk]

/-- C1 (code bug evidence): on a two-row label table the code returns
`seq_num = 0` even though it builds one segment and one label row
(`seq_num = labels.shape[0] - 1` after `labels` has already dropped the
last row), so `seq_num ≠ N - 1` and `LabelMatrix.shape[0] ≠ seq_num`. -/
theorem C1_seq_num_off_by_one :
    (genTwo.get_samples mediaA "d" "l").2.map Samples.seq_num = Except.ok 0 ∧
    (genTwo.get_samples mediaA "d" "l").2.map (fun s => s.labels.length) =
      Except.ok 1 ∧ (0 : ℤ) ≠ 1 := by
  rw [get_samples_spec genTwo mediaA "d" "l" rowsTwo namesABC rfl (by decide)]
  refine ⟨?_, ?_, by norm_num⟩ <;> simp [Except.map, labelsOf, rowsTwo]

/-- C2 (counterexample): with `fps = 30` and a first interval of `0.99`
seconds the code stores `visual_window = 29` (truncation of `29.7`),
while rounding to the nearest integer as the claim states would give
`round (29.7) = 30`. -/
theorem C2_trunc_not_round :
    (genPoint99.get_samples mediaA "d" "l").2.map Samples.num_samples =
        Except.ok [15840, 29] ∧
    round ((30 : ℚ) * (99 / 100 - 0)) = 30 ∧ (29 : ℤ) ≠ 30 := by
  refine ⟨?_, by norm_num [round_eq], by norm_num⟩
  rw [get_samples_spec genPoint99 mediaA "d" "l" [[0, 5], [99 / 100, 7]]
        ["t", "a"] rfl (by decide)]
  simp only [Except.map, audioWindow, visualWindow, dtOf, timestampsOf,
    genPoint99]
  norm_num [pyTruncInt, npAround6, roundHalfEven, round_eq, Int.fract]

/-- C2 (amended): the stored windows are
`int(np.around(rate * (timestamps[1] - timestamps[0]), 6))` — the
six-decimal rounding of the product, then truncated toward zero — not
the product rounded to the nearest integer. -/
theorem C2_window_truncation (gen : AudioVisualGenerator)
    (media : String → Clip) (data_file label_file : String)
    (rows : List (List ℚ)) (names : List String)
    (hread : gen.labelfile_reader label_file = (rows, names))
    (h2 : 2 ≤ rows.length) :
    (gen.get_samples media data_file label_file).2.map Samples.num_samples =
      Except.ok
        [pyTruncInt (npAround6 (gen.sr *
           ((timestampsOf rows).getD 1 0 - (timestampsOf rows).headI))),
         pyTruncInt (npAround6 (gen.fps *
           ((timestampsOf rows).getD 1 0 - (timestampsOf rows).headI)))] := by
  rw [get_samples_spec gen media data_file label_file rows names hread h2]
  simp [Except.map, audioWindow, visualWindow, dtOf]

/-- Witness for C2 (amended) at the two-row fixture: `sr = 16000`,
`fps = 30`, `dt = 1`, so the stored windows are `[16000, 30]`. -/
theorem C2_window_truncation_witness :
    (genTwo.get_samples mediaA "d" "l").2.map Samples.num_samples =
      Except.ok [16000, 30] := by
  rw [C2_window_truncation genTwo mediaA "d" "l" rowsTwo namesABC rfl (by decide)]
  norm_num [genTwo, timestampsOf, rowsTwo, pyTruncInt, npAround6,
    roundHalfEven, round_eq]

/-- C4 (counterexample): on a one-row label table the run does fail,
but only after the media handle has been opened — the event trace is
`[openMedia]`, contradicting "no media handle is opened" — and the error
is a plain index error (`timestamps[1]`), not a dedicated check. -/
theorem C4_media_opened_on_one_row :
    genOne.get_samples mediaA "d" "l" =
      ([MediaEvent.openMedia], Except.error PyErr.indexError) ∧
    MediaEvent.openMedia ∈ (genOne.get_samples mediaA "d" "l").1 := by
  have h : genOne.get_samples mediaA "d" "l" =
      ([MediaEvent.openMedia], Except.error PyErr.indexError) := by
    simp [AudioVisualGenerator.get_samples, genOne, readerOne]
  exact ⟨h, by rw [h]; simp⟩

/-- C4 (amended): with fewer than two label rows the run fails with an
index error and performs no per-segment range read; but the media handle
is opened before the failure whenever the table has exactly one row
(only the zero-row table fails before the open). -/
theorem C4_insufficient_labels (gen : AudioVisualGenerator)
    (media : String → Clip) (data_file label_file : String)
    (rows : List (List ℚ)) (names : List String)
    (hread : gen.labelfile_reader label_file = (rows, names))
    (hlt : rows.length < 2) :
    (gen.get_samples media data_file label_file).2 =
        Except.error PyErr.indexError ∧
    (∀ i, MediaEvent.readVisual i ∉ (gen.get_samples media data_file label_file).1 ∧
          MediaEvent.readAudio i ∉ (gen.get_samples media data_file label_file).1) ∧
    (rows.length = 1 →
      (gen.get_samples media data_file label_file).1 = [MediaEvent.openMedia]) ∧
    (rows.length = 0 →
      (gen.get_samples media data_file label_file).1 = []) := by
  by_cases h0 : rows.length = 0
  · simp [AudioVisualGenerator.get_samples, hread, h0]
  · have h1 : rows.length = 1 := by omega
    simp [AudioVisualGenerator.get_samples, hread, h0, h1]

/-- Witness for C4 (amended) at the one-row fixture. -/
theorem C4_insufficient_labels_witness :
    (genOne.get_samples mediaA "d" "l").2 = Except.error PyErr.indexError ∧
    (genOne.get_samples mediaA "d" "l").1 = [MediaEvent.openMedia] := by
  have h := C4_insufficient_labels genOne mediaA "d" "l" [[0, 5]] namesABC
    rfl (by decide)
  exact ⟨h.1, h.2.2.1 (by decide)⟩

/-- C7 (counterexample): with loader attribute names
`["timestamp", "a", "b"]` the code stores `label_names = ["a", "b"]` —
only the single leading name is dropped — whereas dropping the timestamp
name and the first remaining name as claimed would store `["b"]`. -/
theorem C7_label_names_counterexample :
    (genTwo.serialize_samples mediaA "d" "l").2.map H5Data.label_names =
        Except.ok ["a", "b"] ∧
    (["a", "b"] : List String) ≠ namesABC.drop 2 := by
  constructor
  · unfold AudioVisualGenerator.serialize_samples
    rw [get_samples_spec genTwo mediaA "d" "l" rowsTwo namesABC rfl (by decide)]
    simp [Except.map, namesABC]
  · simp [namesABC]

/-- C7 (amended): `serialize_samples` stores as `label_names` the
loader's attribute-name list with exactly its first entry (the timestamp
name, at index 0) dropped: `label_names = names[1:]`. -/
theorem C7_label_names_drop_one (gen : AudioVisualGenerator)
    (media : String → Clip) (data_file label_file : String)
    (rows : List (List ℚ)) (names : List String)
    (hread : gen.labelfile_reader label_file = (rows, names))
    (h2 : 2 ≤ rows.length) :
    (gen.serialize_samples media data_file label_file).2.map H5Data.label_names =
      Except.ok (names.drop 1) := by
  unfold AudioVisualGenerator.serialize_samples
  rw [get_samples_spec gen media data_file label_file rows names hread h2]
  simp [Except.map, List.drop_one]

/-- Witness for C7 (amended) at the two-row fixture. -/
theorem C7_label_names_drop_one_witness :
    (genTwo.serialize_samples mediaA "d" "l").2.map H5Data.label_names =
      Except.ok ["a", "b"] := by
  rw [C7_label_names_drop_one genTwo mediaA "d" "l" rowsTwo namesABC rfl
    (by decide)]
  simp [namesABC]

/-- C6 (confirmed): for every segment, when the media source returns a
`T × ch` multi-channel audio block for that segment's interval, the
emitted audio block is the per-sample mean across the channel axis,
truncated to the leading `audio_window` samples. -/
theorem C6_audio_channel_mean (gen : AudioVisualGenerator)
    (media : String → Clip) (data_file label_file : String)
    (rows : List (List ℚ)) (names : List String)
    (hread : gen.labelfile_reader label_file = (rows, names))
    (h2 : 2 ≤ rows.length) (i : ℕ) (hi : i < rows.length - 1)
    (raw : AudBlock) (ch : ℕ) (hch : 0 < ch)
    (hraw : (media data_file).audSub ((timestampsOf rows).getD i 0)
        ((timestampsOf rows).getD (i + 1) 0) = raw)
    (hshape : ∀ r ∈ raw, r.length = ch)
    (haw : 0 ≤ audioWindow gen.sr rows) :
    (gen.get_samples media data_file label_file).2.map
        (fun s => s.audio_frames.getD i []) =
      Except.ok
        ((raw.map (fun r => r.sum / (ch : ℚ))).take
          (audioWindow gen.sr rows).toNat) := by
  rw [get_samples_spec gen media data_file label_file rows names hread h2]
  simp only [Except.map]
  rw [getD_map_range _ i hi]
  unfold segAudio pySliceTo npMean1
  rw [hraw, if_pos haw]
  refine congrArg Except.ok
    (congrArg (List.take (audioWindow gen.sr rows).toNat)
      (List.map_congr_left ?_))
  intro r hr
  rw [hshape r hr]

/-- Witness for C6 at the two-row fixture: the stereo block `[[1, 3]]`
is emitted as the mono mean `[2]`. -/
theorem C6_audio_channel_mean_witness :
    (genTwo.get_samples mediaA "d" "l").2.map
        (fun s => s.audio_frames.getD 0 []) = Except.ok [2] := by
  have h := C6_audio_channel_mean genTwo mediaA "d" "l" rowsTwo namesABC rfl
    (by decide) 0 (by decide) [[1, 3]] 2 (by decide) rfl
    (by intro r hr; simp at hr; simp [hr])
    (by norm_num [audioWindow, dtOf, timestampsOf, rowsTwo, genTwo,
          pyTruncInt, npAround6, roundHalfEven, round_eq, Int.fract])
  have haw : audioWindow genTwo.sr rowsTwo = 16000 := by
    norm_num [audioWindow, dtOf, timestampsOf, rowsTwo, genTwo, pyTruncInt,
      npAround6, roundHalfEven, round_eq, Int.fract]
  rw [h, haw]
  norm_num

/-- C8 (confirmed): the sample grid is a per-run constant. Two runs with
the same rates and the same first two timestamps store the same
`num_samples`, whatever the remaining timestamps are; and within one run
every segment `i` — not only the first — is truncated with the windows
derived from the first interval (`audioWindow`/`visualWindow` of the
run, independent of segment `i`'s own duration). -/
theorem C8_per_run_grid (gen₁ gen₂ : AudioVisualGenerator)
    (media₁ media₂ : String → Clip) (df₁ lf₁ df₂ lf₂ : String)
    (rows₁ rows₂ : List (List ℚ)) (names₁ names₂ : List String)
    (hread₁ : gen₁.labelfile_reader lf₁ = (rows₁, names₁))
    (hread₂ : gen₂.labelfile_reader lf₂ = (rows₂, names₂))
    (h2₁ : 2 ≤ rows₁.length) (h2₂ : 2 ≤ rows₂.length)
    (hfps : gen₁.fps = gen₂.fps) (hsr : gen₁.sr = gen₂.sr)
    (hts0 : (timestampsOf rows₁).headI = (timestampsOf rows₂).headI)
    (hts1 : (timestampsOf rows₁).getD 1 0 = (timestampsOf rows₂).getD 1 0) :
    (gen₁.get_samples media₁ df₁ lf₁).2.map Samples.num_samples =
      (gen₂.get_samples media₂ df₂ lf₂).2.map Samples.num_samples ∧
    ∀ i, i < rows₁.length - 1 →
      (gen₁.get_samples media₁ df₁ lf₁).2.map
          (fun s => s.audio_frames.getD i []) =
        Except.ok (segAudio (media₁ df₁) ((timestampsOf rows₁).getD i 0)
          ((timestampsOf rows₁).getD (i + 1) 0) (audioWindow gen₁.sr rows₁)) ∧
      (gen₁.get_samples media₁ df₁ lf₁).2.map
          (fun s => s.visual_frames.getD i []) =
        Except.ok (segVisual gen₁.detector (media₁ df₁)
          ((timestampsOf rows₁).getD i 0) ((timestampsOf rows₁).getD (i + 1) 0)
          (visualWindow gen₁.fps rows₁)) := by
  rw [get_samples_spec gen₁ media₁ df₁ lf₁ rows₁ names₁ hread₁ h2₁,
    get_samples_spec gen₂ media₂ df₂ lf₂ rows₂ names₂ hread₂ h2₂]
  refine ⟨?_, ?_⟩
  · simp only [Except.map, audioWindow, visualWindow, dtOf, hts0, hts1,
      hfps, hsr]
  · intro i hi
    simp only [Except.map]
    rw [getD_map_range _ i hi, getD_map_range _ i hi]
    exact ⟨rfl, rfl⟩

/-- Witness for C8: `genTwo` (two rows) and `genThree30` (three rows)
share `fps = 30`, `sr = 16000` and the first interval `[0, 1]`, so both
store `num_samples = [16000, 30]`; and segment 0 of the two-row run uses
the first-interval windows. -/
theorem C8_per_run_grid_witness :
    (genTwo.get_samples mediaA "d" "l").2.map Samples.num_samples =
      (genThree30.get_samples mediaA "d" "l").2.map Samples.num_samples ∧
    (genTwo.get_samples mediaA "d" "l").2.map
        (fun s => s.audio_frames.getD 0 []) =
      Except.ok (segAudio (mediaA "d") ((timestampsOf rowsTwo).getD 0 0)
        ((timestampsOf rowsTwo).getD 1 0) (audioWindow genTwo.sr rowsTwo)) := by
  have h := C8_per_run_grid genTwo genThree30 mediaA mediaA "d" "l" "d" "l"
    rowsTwo rowsThree namesABC namesABC rfl rfl (by decide) (by decide)
    rfl rfl (by simp [timestampsOf, rowsTwo, rowsThree])
    (by simp [timestampsOf, rowsTwo, rowsThree])
  exact ⟨h.1, (h.2 0 (by decide)).1⟩

/-- C9 (confirmed): the aligner is deterministic. Two invocations on the
same `(data_file, label_file)` pair whose configurations agree and whose
collaborators give the same responses (same label-reader output, same
per-interval media reads, same detector resolution and per-input
processing results) return identical outputs — the event trace and every
tensor, count, window and name list; there is no hidden state. -/
theorem C9_deterministic (gen₁ gen₂ : AudioVisualGenerator)
    (media₁ media₂ : String → Clip) (data_file label_file : String)
    (hreader : ∀ f, gen₁.labelfile_reader f = gen₂.labelfile_reader f)
    (hdet : detectorEquiv gen₁.detector gen₂.detector)
    (hfps : gen₁.fps = gen₂.fps) (hsr : gen₁.sr = gen₂.sr)
    (hvis : ∀ f s e, (media₁ f).visSub s e = (media₂ f).visSub s e)
    (haud : ∀ f s e, (media₁ f).audSub s e = (media₂ f).audSub s e) :
    gen₁.get_samples media₁ data_file label_file =
      gen₂.get_samples media₂ data_file label_file := by
  have hm : media₁ = media₂ := by
    funext f
    have hv : (media₁ f).visSub = (media₂ f).visSub :=
      funext fun s => funext fun e => hvis f s e
    have ha : (media₁ f).audSub = (media₂ f).audSub :=
      funext fun s => funext fun e => haud f s e
    exact Clip.ext hv ha
  have hd : gen₁.detector = gen₂.detector := by
    cases hA : gen₁.detector with
    | none =>
        cases hB : gen₂.detector with
        | none => rfl
        | some d₂ =>
            rw [hA, hB] at hdet
            exact absurd hdet (by simp [detectorEquiv])
    | some d₁ =>
        cases hB : gen₂.detector with
        | none =>
            rw [hA, hB] at hdet
            exact absurd hdet (by simp [detectorEquiv])
        | some d₂ =>
            rw [hA, hB] at hdet
            obtain ⟨hr, hf⟩ := hdet
            exact congrArg some (FaceExtractor.ext hr (funext hf))
  have hg : gen₁ = gen₂ :=
    AudioVisualGenerator.ext (funext hreader) hd hfps hsr
  rw [hm, hg]

/-- Witness for C9: two invocations over the two-row fixture with
pointwise-identical collaborators agree. -/
theorem C9_deterministic_witness :
    genTwo.get_samples mediaA "d" "l" = genTwo.get_samples mediaA "d" "l" :=
  C9_deterministic genTwo genTwo mediaA mediaA "d" "l" (fun _ => rfl)
    ⟨rfl, fun _ => rfl⟩ rfl rfl (fun _ _ _ => rfl) (fun _ _ _ => rfl)

/-- With a detector present, the per-segment visual result is the
transpose of the `try/except` detector branch on the truncated raw
frames. -/
theorem segVisual_some (d : FaceExtractor) (clip : Clip) (s e : ℚ)
    (vwin : ℤ) :
    segVisual (some d) clip s e vwin =
      npTranspose0312 (detectorBranch d (segVisualRaw clip s e vwin)) := rfl

/-- C10 (confirmed): after `__init__` the detector slot always holds a
detector — a missing one is replaced by the default `FaceExtractor()` —
and consequently on every segment of every run the visual block is the
transpose of the detector branch (extract, or zero fallback on failure):
the post-processing step cannot be disabled through the constructor. -/
theorem C10_detector_never_absent
    (reader : String → List (List ℚ) × List String)
    (dOpt : Option FaceExtractor) (fps sr : ℚ) (media : String → Clip)
    (data_file label_file : String) (rows : List (List ℚ))
    (names : List String) (hread : reader label_file = (rows, names))
    (h2 : 2 ≤ rows.length) :
    (AudioVisualGenerator.init reader dOpt fps sr).detector =
      some (dOpt.getD FaceExtractor.default) ∧
    ∀ i, i < rows.length - 1 →
      ((AudioVisualGenerator.init reader dOpt fps sr).get_samples media
          data_file label_file).2.map (fun s => s.visual_frames.getD i []) =
        Except.ok (npTranspose0312 (detectorBranch (dOpt.getD FaceExtractor.default)
          (segVisualRaw (media data_file) ((timestampsOf rows).getD i 0)
            ((timestampsOf rows).getD (i + 1) 0) (visualWindow fps rows)))) := by
  refine ⟨rfl, ?_⟩
  intro i hi
  rw [get_samples_spec (AudioVisualGenerator.init reader dOpt fps sr) media
    data_file label_file rows names hread h2]
  simp only [Except.map]
  rw [getD_map_range _ i hi]
  rfl

/-- Witness for C10: constructing with `detector = None` over the
two-row fixture stores the default detector, and segment 0's block is
the transposed detector branch of its truncated raw frames. -/
theorem C10_detector_never_absent_witness :
    (AudioVisualGenerator.init readerTwo none 30 16000).detector =
      some FaceExtractor.default ∧
    ((AudioVisualGenerator.init readerTwo none 30 16000).get_samples mediaA
        "d" "l").2.map (fun s => s.visual_frames.getD 0 []) =
      Except.ok (npTranspose0312 (detectorBranch FaceExtractor.default
        (segVisualRaw clipA ((timestampsOf rowsTwo).getD 0 0)
          ((timestampsOf rowsTwo).getD 1 0) (visualWindow 30 rowsTwo)))) := by
  have h := C10_detector_never_absent readerTwo none 30 16000 mediaA "d" "l"
    rowsTwo namesABC rfl (by decide)
  exact ⟨h.1, h.2 0 (by decide)⟩

/-- C3 (confirmed): failure isolation. If the detector fails on segment
`k`'s truncated frames only — agreeing with a succeeding detector on
every other segment — then the run still succeeds (the failure never
leaves the aligner), segment `k`'s stored block is the transposed
all-zero fallback `(1, R, R, 3)` frame, every other segment's visual
block is exactly what the succeeding detector produces, and the audio
blocks are untouched. -/
theorem C3_failure_isolation
    (reader : String → List (List ℚ) × List String) (fps sr : ℚ) (R : ℕ)
    (f₁ f₂ : VisBlock → Except Unit VisBlock) (media : String → Clip)
    (data_file label_file : String) (rows : List (List ℚ))
    (names : List String) (hread : reader label_file = (rows, names))
    (h2 : 2 ≤ rows.length) (k : ℕ) (hk : k < rows.length - 1)
    (hfail : f₂ (segVisualRaw (media data_file)
        ((timestampsOf rows).getD k 0) ((timestampsOf rows).getD (k + 1) 0)
        (visualWindow fps rows)) = Except.error ())
    (hsucc : ∃ r, f₁ (segVisualRaw (media data_file)
        ((timestampsOf rows).getD k 0) ((timestampsOf rows).getD (k + 1) 0)
        (visualWindow fps rows)) = Except.ok r)
    (hagree : ∀ j, j < rows.length - 1 → j ≠ k →
      f₂ (segVisualRaw (media data_file) ((timestampsOf rows).getD j 0)
          ((timestampsOf rows).getD (j + 1) 0) (visualWindow fps rows)) =
        f₁ (segVisualRaw (media data_file) ((timestampsOf rows).getD j 0)
          ((timestampsOf rows).getD (j + 1) 0) (visualWindow fps rows))) :
    (∃ out,
      (AudioVisualGenerator.get_samples
          ⟨reader, some ⟨R, f₂⟩, fps, sr⟩ media data_file label_file).2 =
        Except.ok out) ∧
    (AudioVisualGenerator.get_samples
        ⟨reader, some ⟨R, f₂⟩, fps, sr⟩ media data_file label_file).2.map
        (fun s => s.visual_frames.getD k []) =
      Except.ok (npTranspose0312 (zeroFallback R)) ∧
    (∀ j, j < rows.length - 1 → j ≠ k →
      (AudioVisualGenerator.get_samples
          ⟨reader, some ⟨R, f₂⟩, fps, sr⟩ media data_file label_file).2.map
          (fun s => s.visual_frames.getD j []) =
        (AudioVisualGenerator.get_samples
            ⟨reader, some ⟨R, f₁⟩, fps, sr⟩ media data_file label_file).2.map
          (fun s => s.visual_frames.getD j [])) ∧
    (AudioVisualGenerator.get_samples
        ⟨reader, some ⟨R, f₂⟩, fps, sr⟩ media data_file label_file).2.map
        Samples.audio_frames =
      (AudioVisualGenerator.get_samples
          ⟨reader, some ⟨R, f₁⟩, fps, sr⟩ media data_file label_file).2.map
        Samples.audio_frames := by
  rw [get_samples_spec ⟨reader, some ⟨R, f₂⟩, fps, sr⟩ media data_file
      label_file rows names hread h2,
    get_samples_spec ⟨reader, some ⟨R, f₁⟩, fps, sr⟩ media data_file
      label_file rows names hread h2]
  refine ⟨⟨_, rfl⟩, ?_, ?_, rfl⟩
  · simp only [Except.map]
    rw [getD_map_range _ k hk]
    rw [segVisual_some]
    unfold detectorBranch
    simp only [hfail]
  · intro j hj hne
    simp only [Except.map]
    rw [getD_map_range _ j hj, getD_map_range _ j hj]
    rw [segVisual_some, segVisual_some]
    unfold detectorBranch
    simp only [hagree j hj hne]

/-- Witness for C3 over the three-row fixture: the detector that fails
exactly on segment 0 yields a successful run, the zero-fallback block at
segment 0, and audio identical to the always-succeeding run. -/
theorem C3_failure_isolation_witness :
    (∃ out,
      (AudioVisualGenerator.get_samples
          ⟨readerThree, some ⟨1, failOnZeroExtractor.extract_and_resize_face⟩,
            1, 1⟩ mediaA "d" "l").2 = Except.ok out) ∧
    (AudioVisualGenerator.get_samples
        ⟨readerThree, some ⟨1, failOnZeroExtractor.extract_and_resize_face⟩,
          1, 1⟩ mediaA "d" "l").2.map (fun s => s.visual_frames.getD 0 []) =
      Except.ok (npTranspose0312 (zeroFallback 1)) ∧
    (AudioVisualGenerator.get_samples
        ⟨readerThree, some ⟨1, failOnZeroExtractor.extract_and_resize_face⟩,
          1, 1⟩ mediaA "d" "l").2.map Samples.audio_frames =
      (AudioVisualGenerator.get_samples
          ⟨readerThree, some ⟨1, fun v => Except.ok v⟩, 1, 1⟩ mediaA
          "d" "l").2.map Samples.audio_frames := by
  have hvw : visualWindow 1 rowsThree = 1 := by
    norm_num [visualWindow, dtOf, timestampsOf, rowsThree, pyTruncInt,
      npAround6, roundHalfEven, round_eq, Int.fract]
  have h := C3_failure_isolation readerThree 1 1 1
    (fun v => Except.ok v) failOnZeroExtractor.extract_and_resize_face
    mediaA "d" "l" rowsThree namesABC rfl (by decide) 0 (by decide)
    (by rw [hvw]
        simp [failOnZeroExtractor, segVisualRaw, pySliceTo, mediaA, clipA,
          timestampsOf, rowsThree])
    ⟨_, rfl⟩
    (by intro j hj hne
        have hj2 : j < 2 := by simpa [rowsThree] using hj
        clear hj
        interval_cases j
        · exact absurd rfl hne
        · rw [hvw]
          simp [failOnZeroExtractor, segVisualRaw, pySliceTo, mediaA, clipA,
            timestampsOf, rowsThree])
  exact ⟨h.1, h.2.1, h.2.2.2⟩

/-- Transposing one `R × R × C` frame with `R > 0` gives a `C × R × R`
frame. -/
theorem shape3_frameToCHW (f : Frame) (R C : ℕ) (hR : 0 < R)
    (hf : shape3 f R R C) : shape3 (frameToCHW f) C R R := by
  obtain ⟨hlen, hrows⟩ := hf
  have hC : f.headI.headI.length = C := by
    cases f with
    | nil => simp at hlen; omega
    | cons r fs =>
        obtain ⟨hrlen, hpx⟩ := hrows r (List.mem_cons_self r fs)
        cases r with
        | nil => simp at hrlen; omega
        | cons p ps =>
            simpa [List.headI] using hpx p (List.mem_cons_self p ps)
  unfold frameToCHW
  rw [hC]
  refine ⟨by simp, ?_⟩
  intro y hy
  obtain ⟨c, _, rfl⟩ := List.mem_map.mp hy
  refine ⟨by simp [hlen], ?_⟩
  intro z hz
  obtain ⟨row, hrow, rfl⟩ := List.mem_map.mp hz
  simpa using (hrows row hrow).1

/-- C5 (amended): when the detector succeeds on every segment, preserves
the frame count, and returns `R × R × C` frames — and the media source
supplies at least `visual_window` raw frames per segment — every entry
of the visual tensor has shape `(visual_window, C, R, R)`: the block is
the leading `visual_window` raw frames, processed, reordered from
channel-last `(T, H, W, C)` to channel-first `(T, C, H, W)`. -/
theorem C5_visual_shape (gen : AudioVisualGenerator) (media : String → Clip)
    (data_file label_file : String) (rows : List (List ℚ))
    (names : List String)
    (hread : gen.labelfile_reader label_file = (rows, names))
    (h2 : 2 ≤ rows.length) (d : FaceExtractor) (hdet : gen.detector = some d)
    (R C : ℕ) (hR : 0 < R) (hvw : 0 ≤ visualWindow gen.fps rows)
    (hraw : ∀ i, i < rows.length - 1 →
      (visualWindow gen.fps rows).toNat ≤
        ((media data_file).visSub ((timestampsOf rows).getD i 0)
          ((timestampsOf rows).getD (i + 1) 0)).length)
    (hproc : ∀ i, i < rows.length - 1 →
      ∃ o, d.extract_and_resize_face (segVisualRaw (media data_file)
          ((timestampsOf rows).getD i 0) ((timestampsOf rows).getD (i + 1) 0)
          (visualWindow gen.fps rows)) = Except.ok o ∧
        o.length = (segVisualRaw (media data_file)
          ((timestampsOf rows).getD i 0) ((timestampsOf rows).getD (i + 1) 0)
          (visualWindow gen.fps rows)).length ∧
        ∀ f ∈ o, shape3 f R R C) :
    ∀ i, i < rows.length - 1 →
      ∃ b, (gen.get_samples media data_file label_file).2.map
          (fun s => s.visual_frames.getD i []) = Except.ok b ∧
        shape4 b (visualWindow gen.fps rows).toNat C R R := by
  intro i hi
  rw [get_samples_spec gen media data_file label_file rows names hread h2]
  simp only [Except.map]
  rw [getD_map_range _ i hi, hdet, segVisual_some]
  obtain ⟨o, ho, hlen, hsh⟩ := hproc i hi
  refine ⟨_, rfl, ?_, ?_⟩
  · unfold detectorBranch
    rw [ho]
    unfold npTranspose0312
    rw [List.length_map, hlen]
    unfold segVisualRaw pySliceTo
    rw [if_pos hvw, List.length_take]
    exact min_eq_left (hraw i hi)
  · intro y hy
    unfold detectorBranch at hy
    rw [ho] at hy
    obtain ⟨f, hf, rfl⟩ := List.mem_map.mp hy
    exact shape3_frameToCHW f R C hR (hsh f hf)

/-- Witness for C5 (amended) over the three-row fixture at unit rates:
with the identity detector every visual block has shape
`(1, 3, 1, 1)`. -/
theorem C5_visual_shape_witness :
    ∃ b, ((genThree idExtractor).get_samples mediaA "d" "l").2.map
        (fun s => s.visual_frames.getD 0 []) = Except.ok b ∧
      shape4 b 1 3 1 1 := by
  have hvw1 : visualWindow (genThree idExtractor).fps rowsThree = 1 := by
    norm_num [visualWindow, dtOf, timestampsOf, rowsThree, genThree,
      pyTruncInt, npAround6, roundHalfEven, round_eq, Int.fract]
  have h := C5_visual_shape (genThree idExtractor) mediaA "d" "l" rowsThree
    namesABC rfl (by decide) idExtractor rfl 1 3 (by decide)
    (by rw [hvw1]; decide)
    (by intro i hi
        rw [hvw1]
        simp [mediaA, clipA])
    (by intro i hi
        refine ⟨_, rfl, rfl, ?_⟩
        intro f hf
        rw [hvw1] at hf
        simp [segVisualRaw, pySliceTo, mediaA, clipA] at hf
        subst hf
        simp [shape3])
    0 (by decide)
  rwa [hvw1] at h

/-- C5 (counterexample): a detector that succeeds but returns two
`1 × 1 × 3` frames (so `T' = 2 ≠ visual_window = 1`) produces a block of
shape `(2, 3, 1, 1)`, not `(visual_window, C, R, R)`. -/
theorem C5_shape_counterexample :
    (genTwoFrames.get_samples mediaA "d" "l").2.map
        (fun s => s.visual_frames.getD 0 []) =
      Except.ok (npTranspose0312 [[[[4, 5, 6]]], [[[7, 8, 9]]]]) ∧
    visualWindow genTwoFrames.fps rowsTwo = 1 ∧
    shape3 [[[(4 : ℚ), 5, 6]]] 1 1 3 ∧ shape3 [[[(7 : ℚ), 8, 9]]] 1 1 3 ∧
    ¬ shape4 (npTranspose0312 [[[[4, 5, 6]]], [[[7, 8, 9]]]]) 1 3 1 1 := by
  refine ⟨?_, ?_, by simp [shape3], by simp [shape3], ?_⟩
  · rw [get_samples_spec genTwoFrames mediaA "d" "l" rowsTwo namesABC rfl
        (by decide)]
    simp only [Except.map]
    rw [getD_map_range _ 0 (by decide)]
    simp [genTwoFrames, segVisual_some, detectorBranch, twoFrameExtractor]
  · norm_num [visualWindow, dtOf, timestampsOf, rowsTwo, genTwoFrames,
      pyTruncInt, npAround6, roundHalfEven, round_eq, Int.fract]
  · simp [shape4, npTranspose0312]
